import Mathlib

/-!
Shallow embedding of the therapy-agent pipeline
(`app/therapy_agent.py` and `app/main.py`).

Modelling conventions:
* The external Gemini client (`model.generate_content(...).text`) is an
  oracle `genResults : Nat → Except GenError String` indexed by the number
  of calls made so far; a `World` record threads the global mutable pieces
  (call counter, random stream, the module-level `memory` dict).  A raised
  exception at a call site is an `Except.error` that propagates, exactly as
  an uncaught Python exception would.  Prompt wording is not modelled (it
  never influences control flow or state shape), so the helper functions
  `generate_prompt_flavor` and `is_roman_urdu`, which only contribute prompt
  text, are omitted together with the prompt strings themselves.
* Python dict fields that can be absent, or present with value `None`, are
  `Option (Option String)`: `none` = key absent, `some none` = key present
  holding `None`, `some (some s)` = key present holding string `s`.
* `random.choice(lst)` is modelled by an injectable random stream
  `randPick : Nat → Nat`, the chosen index being `randPick k % lst.length`
  where `k` counts draws made so far.
-/

/-- Failure kinds of the external text-generation capability. -/
inductive GenError
  | timeout
  | rateLimited
  | emptyResult
  | malformed
deriving DecidableEq, Repr

/-- An uncaught Python exception escaping a pipeline node: either a failure
of the generation client, or a `KeyError` on a dict access. -/
inductive PipeError
  | gen (e : GenError)
  | keyError (k : String)
deriving DecidableEq, Repr

/-- One entry of `DUA_DATASET` / `FALLBACK_DUAS`: an Arabic text with its
translation. -/
structure Dua where
  arabic : String
  translation : String
deriving DecidableEq, Repr

/-- One record of the module-level `memory` dict: the keys `"name"` and
`"mood"` may be absent, or present holding `None` or a string. -/
structure MemRecord where
  name : Option (Option String) := none
  mood : Option (Option String) := none
deriving DecidableEq, Repr

/-- The `TherapyState` TypedDict.  `user_id` and `message` are always
present on every state built by `main.py`; the remaining keys follow the
absent / `None` / string convention. -/
structure TherapyState where
  user_id : String
  name : Option (Option String) := none
  message : String
  emotion : Option (Option String) := none
  dua : Option (Option String) := none
  response : Option String := none
deriving DecidableEq, Repr

/-- The ambient mutable world: the generation oracle with its call counter,
the random stream with its draw counter, and the module-level `memory`
dict mapping `user_id` to its record. -/
structure World where
  genResults : Nat → Except GenError String
  genCalls : Nat
  randPick : Nat → Nat
  randCalls : Nat
  memory : String → Option MemRecord

/-- Python `str.strip()`: drop leading and trailing whitespace
(kernel-reducible replacement for `String.trim`). -/
def pyStrip (s : String) : String :=
  ⟨((s.data.dropWhile Char.isWhitespace).reverse.dropWhile Char.isWhitespace).reverse⟩

/-- Python `str.lower()`: lowercase every character
(kernel-reducible replacement for `String.toLower`). -/
def pyLower (s : String) : String :=
  ⟨s.data.map Char.toLower⟩

/-- Python `d.get(key, dflt)` on a field following the absent / `None` /
string convention: the default is used only when the key is absent; a key
present with `None` yields `None`. -/
def dictGetD (field : Option (Option String)) (dflt : String) : Option String :=
  match field with
  | some v => v
  | none => some dflt

/-- Python `state.get(key)` with no default: `None` both when the key is
absent and when it holds `None`. -/
def pyGet (field : Option (Option String)) : Option String :=
  field.bind id

/-- Python `x in lst` where `x` is a possibly-`None` string and `lst` a
list of strings: `None` is a member of no string list. -/
def pyMem (o : Option String) (l : List String) : Bool :=
  match o with
  | some e => decide (e ∈ l)
  | none => false

/-- Python `random.choice(lst)`: draw the next value of the random stream
and index the list with it modulo its length. -/
def pyChoice (l : List Dua) (w : World) : Dua × World :=
  (l.getD (w.randPick w.randCalls % l.length) ⟨"", ""⟩,
   { w with randCalls := w.randCalls + 1 })

/-- One call `model.generate_content(prompt).text`: consume the next oracle
entry and bump the call counter; a client failure is the Python exception
that the (absent) caller-side handling would have to catch. -/
def callModel (w : World) : Except PipeError String × World :=
  let r := w.genResults w.genCalls
  let w' := { w with genCalls := w.genCalls + 1 }
  match r with
  | .ok t => (.ok t, w')
  | .error e => (.error (.gen e), w')

/-- The nine-label list offered to the classifier in its prompt
(`classify_emotion`, source line 104). -/
def EMOTION_LABELS : List String :=
  ["sad", "angry", "anxious", "tired", "lonely", "guilty", "empty", "hopeless", "happy"]

/-- `classify_emotion`: one client call, then
`state["emotion"] = text.strip().lower()` — the output is stored verbatim,
with no validation against `EMOTION_LABELS` and no exception handling. -/
def classify_emotion (s : TherapyState) (w : World) :
    Except PipeError TherapyState × World :=
  match callModel w with
  | (.ok t, w') => (.ok { s with emotion := some (some (pyLower (pyStrip t))) }, w')
  | (.error e, w') => (.error e, w')

/-- `FALLBACK_DUAS` (source lines 74–95). -/
def FALLBACK_DUAS : List Dua :=
  [⟨"رَبِّ إِنِّي لِمَا أَنْزَلْتَ إِلَيَّ مِنْ خَيْرٍ فَقِيرٌ",
    "My Lord, indeed I am in need of whatever good You would send down to me."⟩,
   ⟨"اللّهُمَّ إِنِّي أَسْأَلُكَ رِضَاكَ وَالجَنَّةَ وَأَعُوذُ بِكَ مِنْ سَخَطِكَ وَالنَّارِ",
    "O Allah, I ask You for Your pleasure and Paradise, and I seek refuge in You from Your anger and the Fire."⟩,
   ⟨"اللّهُمَّ لا تَجْعَلْ مُصِيبَتَنَا فِي دِينِنَا",
    "O Allah, do not make our affliction in our religion."⟩,
   ⟨"اللّهُمَّ ثَبِّتْ قَلْبِي عَلَى دِينِكَ",
    "O Allah, make my heart steadfast upon Your religion."⟩,
   ⟨"رَبَّنَا آتِنَا فِي الدُّنْيَا حَسَنَةً وَفِي الآخِرَةِ حَسَنَةً وَقِنَا عَذَابَ النَّارِ",
    "Our Lord, give us in this world [that which is] good and in the Hereafter [that which is] good, and protect us from the punishment of the Fire."⟩]

/-- `DUA_DATASET` (source lines 115–226), an association list keyed by
emotion label, in source order: sad, anxious, hopeless, guilty, lonely. -/
def DUA_DATASET : List (String × List Dua) :=
  [("sad",
    [⟨"اللّهُمَّ إِنِّي أَعُوذُ بِكَ مِنَ الهَمِّ وَالحَزَنِ",
      "O Allah, I seek refuge in You from worry and grief."⟩,
     ⟨"اللّهُمَّ اجْبُرْ كَسْرِي وَارْزُقْنِي الرِّضَا",
      "O Allah, mend my brokenness and grant me contentment."⟩,
     ⟨"اللّهُمَّ املأ قلبي سرورًا وأملاً بك",
      "O Allah, fill my heart with joy and hope in You."⟩,
     ⟨"اللّهُمَّ إِنِّي أَسْأَلُكَ نَفْسًا مُطْمَئِنَّةً",
      "O Allah, I ask You for a soul that is content."⟩,
     ⟨"اللّهُمَّ اجعلني ممن تبشرهم الملائكة: ألا تخافوا ولا تحزنوا",
      "O Allah, make me among those whom the angels give glad tidings: \x27Do not fear and do not grieve.\x27"⟩]),
   ("anxious",
    [⟨"اللّهُمَّ لاَ سَهْلَ إِلاَّ مَا جَعَلْتَهُ سَهْلاً",
      "O Allah, there is no ease except what You make easy."⟩,
     ⟨"اللّهُمَّ اكفني همي وأزل عني كربي",
      "O Allah, relieve me of my worry and remove my distress."⟩,
     ⟨"اللّهُمَّ طمئن قلبي بذكرك",
      "O Allah, reassure my heart with Your remembrance."⟩,
     ⟨"اللّهُمَّ إني أعوذ بك من الهم والحزن",
      "O Allah, I seek refuge in You from anxiety and sorrow."⟩,
     ⟨"اللّهُمَّ اشرح لي صدري ويسر لي أمري",
      "O Allah, expand for me my chest and ease for me my task."⟩]),
   ("hopeless",
    [⟨"اللّهُمَّ ارزقني حسن الظن بك",
      "O Allah, grant me good thoughts about You."⟩,
     ⟨"اللّهُمَّ اجعلني من المتوكلين عليك",
      "O Allah, make me among those who rely upon You."⟩,
     ⟨"اللّهُمَّ لا تحرمني خير ما عندك بسوء ما عندي",
      "O Allah, do not deprive me of the best of what You have because of the worst of what I have."⟩,
     ⟨"رَبِّ لَا تَذَرْنِي فَرْدًا وَأَنتَ خَيْرُ الْوَارِثِينَ",
      "My Lord, do not leave me alone, and You are the best of inheritors."⟩,
     ⟨"اللّهُمَّ اجعل آخر كلامي شهادة أن لا إله إلا الله",
      "O Allah, make the last words I speak: There is no god but Allah."⟩]),
   ("guilty",
    [⟨"اللّهُمَّ إِنِّي ظَلَمْتُ نَفْسِي ظُلْمًا كَثِيرًا فَاغْفِرْ لِي",
      "O Allah, I have greatly wronged myself, so forgive me."⟩,
     ⟨"رَبِّ اغْفِرْ وَارْحَمْ وَأَنتَ خَيْرُ الرَّاحِمِينَ",
      "My Lord, forgive and have mercy, and You are the best of the merciful."⟩,
     ⟨"اللّهُمَّ اجعلني من التوابين",
      "O Allah, make me among those who repent often."⟩,
     ⟨"اللّهُمَّ طَهِّرْ قلبي من الذنوب والخطايا",
      "O Allah, purify my heart from sins and mistakes."⟩,
     ⟨"رَبَّنَا اغْفِرْ لَنَا ذُنُوبَنَا وَكَفِّرْ عَنَّا سَيِّئَاتِنَا",
      "Our Lord, forgive us our sins and remove from us our misdeeds."⟩]),
   ("lonely",
    [⟨"اللّهُمَّ آنِسْ وَحْشَتِي",
      "O Allah, comfort my loneliness."⟩,
     ⟨"اللّهُمَّ اكفني بحلالك عن حرامك وأغنني بفضلك عمن سواك",
      "O Allah, suffice me with Your lawful against Your unlawful, and enrich me by Your bounty over all besides You."⟩,
     ⟨"اللّهُمَّ كُنْ مَعِي وَلاَ تَكُنْ عَلَيَّ",
      "O Allah, be with me and not against me."⟩,
     ⟨"اللّهُمَّ إني أسألك أنس القلب بقربك",
      "O Allah, I ask You for the comfort of the heart through closeness to You."⟩,
     ⟨"اللّهُمَّ املأ قلبي بنورك ورضاك",
      "O Allah, fill my heart with Your light and Your pleasure."⟩])]

/-- Serialization of a selected dua into the state:
`f"Arabic: {...}\nTranslation: {...}"` (source lines 241, 248). -/
def duaText (d : Dua) : String :=
  "Arabic: " ++ d.arabic ++ "\nTranslation: " ++ d.translation

/-- `fetch_dua`: for happy/neutral/none emotions set `dua` to `None`;
for an emotion keyed in `DUA_DATASET` pick one of its duas at random;
otherwise pick one of `FALLBACK_DUAS` at random.  No client call is made,
and no exception can be raised. -/
def fetch_dua (s : TherapyState) (w : World) : TherapyState × World :=
  let emotion := pyGet s.emotion
  if pyMem emotion ["happy", "neutral", "none"] then
    ({ s with dua := some none }, w)
  else
    match emotion.bind (fun e => List.lookup e DUA_DATASET) with
    | some l =>
      let p := pyChoice l w
      ({ s with dua := some (some (duaText p.1)) }, p.2)
    | none =>
      let p := pyChoice FALLBACK_DUAS w
      ({ s with dua := some (some (duaText p.1)) }, p.2)

/-- `generate_counseling`: build the counselling prompt (wording not
modelled), make one client call, and store the stripped reply in
`state["response"]`.  No exception handling: a client failure propagates,
and an empty stripped reply is stored as-is. -/
def generate_counseling (s : TherapyState) (w : World) :
    Except PipeError TherapyState × World :=
  match callModel w with
  | (.ok t, w') => (.ok { s with response := some (pyStrip t) }, w')
  | (.error e, w') => (.error e, w')

/-- `set_user_memory`: write `state["name"]` / `state["emotion"]` into the
user's memory record whenever the key is present on the state (even when
it holds `None`), then read both back into the state with defaults
`"Friend"` / `"neutral"`.  The final `memory[uid]` access raises `KeyError`
when the record still does not exist. -/
def set_user_memory (s : TherapyState) (w : World) :
    Except PipeError TherapyState × World :=
  let uid := s.user_id
  let mem0 := w.memory
  let mem1 := match s.name with
    | some v =>
      let r := (mem0 uid).getD {}
      fun k => if k = uid then some { r with name := some v } else mem0 k
    | none => mem0
  let mem2 := match s.emotion with
    | some v =>
      let r := (mem1 uid).getD {}
      fun k => if k = uid then some { r with mood := some v } else mem1 k
    | none => mem1
  match mem2 uid with
  | some r =>
    (.ok { s with
        name := some (dictGetD r.name "Friend"),
        emotion := some (dictGetD r.mood "neutral") },
     { w with memory := mem2 })
  | none => (.error (.keyError uid), { w with memory := mem2 })

/-- The eight-label distress list of the conditional-edge lambda
(source line 345). -/
def DISTRESS_LIST : List String :=
  ["sad", "angry", "anxious", "tired", "lonely", "guilty", "empty", "hopeless"]

/-- The routing lambda of `graph.add_conditional_edges`: the name of the
node to run after `detect_emotion`. -/
def route (s : TherapyState) : String :=
  if pyMem (pyGet s.emotion) DISTRESS_LIST then "get_dua" else "generate_reply"

/-- Execution after the routing decision: either `get_dua` followed by
`generate_reply` (edge `get_dua → generate_reply`), or `generate_reply`
directly. -/
def runBranch (s : TherapyState) (w : World) :
    Except PipeError TherapyState × World :=
  if route s = "get_dua" then
    let p := fetch_dua s w
    generate_counseling p.1 p.2
  else
    generate_counseling s w

/-- `langgraph_app.invoke`: `handle_memory → detect_emotion → [route] →
(get_dua)? → generate_reply`, propagating any uncaught exception. -/
def invoke (s : TherapyState) (w : World) :
    Except PipeError TherapyState × World :=
  match set_user_memory s w with
  | (.error e, w') => (.error e, w')
  | (.ok s1, w1) =>
    match classify_emotion s1 w1 with
    | (.error e, w') => (.error e, w')
    | (.ok s2, w2) => runBranch s2 w2

/-- The `/chat` request body (`UserMessage` in `main.py`): `name` defaults
to Python `None`. -/
structure ChatRequest where
  user_id : String
  name : Option String := none
  message : String
deriving DecidableEq, Repr

/-- The `/chat` response content: the three values placed in the JSON
object by `main.py`.  `name` and `emotion` may be JSON null. -/
structure ChatResponse where
  name : Option String
  emotion : Option String
  message : String
deriving DecidableEq, Repr

/-- A JSON value appearing in the response object: a string or null. -/
inductive JsonVal
  | str (s : String)
  | null
deriving DecidableEq, Repr

/-- Serialize an optional string as a JSON value. -/
def optJson : Option String → JsonVal
  | some t => .str t
  | none => .null

/-- The JSON object literal returned by `chat` in `main.py`
(keys in source order). -/
def chatResponseJson (r : ChatResponse) : List (String × JsonVal) :=
  [("name", optJson r.name), ("emotion", optJson r.emotion),
   ("message", .str r.message)]

/-- The `/chat` endpoint: build the initial state with the keys `user_id`,
`name` (always present, possibly `None`) and `message`, invoke the graph,
then read `result["name"]`, `result["emotion"]`, `result["response"]`
(each raising `KeyError` when its key is absent). -/
def chat (req : ChatRequest) (w : World) :
    Except PipeError ChatResponse × World :=
  let s : TherapyState :=
    { user_id := req.user_id, name := some req.name, message := req.message }
  match invoke s w with
  | (.error e, w') => (.error e, w')
  | (.ok r, w') =>
    match r.name, r.emotion, r.response with
    | some n, some e, some m =>
      (.ok { name := n, emotion := e, message := m }, w')
    | none, _, _ => (.error (.keyError "name"), w')
    | _, none, _ => (.error (.keyError "emotion"), w')
    | _, _, none => (.error (.keyError "response"), w')

/-- Decidable equality for `Except`, needed to settle concrete pipeline
runs by `decide`. -/
instance instDecEqExceptPipe {ε α : Type} [DecidableEq ε] [DecidableEq α] :
    DecidableEq (Except ε α) := fun x y =>
  match x, y with
  | .ok a, .ok b =>
    if h : a = b then .isTrue (by rw [h]) else .isFalse (fun hh => h (Except.ok.inj hh))
  | .error a, .error b =>
    if h : a = b then .isTrue (by rw [h]) else .isFalse (fun hh => h (Except.error.inj hh))
  | .ok _, .error _ => .isFalse (fun hh => Except.noConfusion hh)
  | .error _, .ok _ => .isFalse (fun hh => Except.noConfusion hh)

/-- A `random.choice` over a non-empty list yields an element of the list. -/
theorem pyChoice_mem (l : List Dua) (w : World) (h : l ≠ []) :
    (pyChoice l w).1 ∈ l := by
  have hlt : w.randPick w.randCalls % l.length < l.length :=
    Nat.mod_lt _ (List.length_pos.mpr h)
  unfold pyChoice
  simp only
  rw [List.getD_eq_getElem?_getD, List.getElem?_eq_getElem hlt]
  simp [List.getElem_mem]

/-- A successful association-list lookup returns a stored value. -/
theorem lookup_mem {α β : Type} [BEq α] {e : α} {m : List (α × β)} {l : β}
    (h : List.lookup e m = some l) : ∃ k, (k, l) ∈ m := by
  induction m with
  | nil => simp [List.lookup] at h
  | cons p m ih =>
    obtain ⟨k, b⟩ := p
    rw [List.lookup] at h
    cases hb : e == k with
    | true =>
      rw [hb] at h
      exact ⟨k, by simp_all⟩
    | false =>
      rw [hb] at h
      obtain ⟨k', hk⟩ := ih h
      exact ⟨k', List.mem_cons_of_mem _ hk⟩

/-- Every per-emotion list of `DUA_DATASET` is non-empty and all of its
entries have non-empty Arabic and translation texts. -/
theorem dataset_entries_wellformed :
    ∀ p ∈ DUA_DATASET, p.2 ≠ [] ∧ ∀ d ∈ p.2, d.arabic ≠ "" ∧ d.translation ≠ "" := by
  decide

/-- `FALLBACK_DUAS` is non-empty and all of its entries have non-empty
Arabic and translation texts. -/
theorem fallback_entries_wellformed :
    FALLBACK_DUAS ≠ [] ∧ ∀ d ∈ FALLBACK_DUAS, d.arabic ≠ "" ∧ d.translation ≠ "" := by
  decide

/-- Whatever the emotion and the random draw, `fetch_dua` stores either the
`None` marker or the serialization of a dua with non-empty fields. -/
theorem fetch_dua_shape (s : TherapyState) (w : World) :
    (fetch_dua s w).1.dua = some none ∨
    ∃ d, d.arabic ≠ "" ∧ d.translation ≠ "" ∧
      (fetch_dua s w).1.dua = some (some (duaText d)) := by
  unfold fetch_dua
  dsimp only
  split
  · left; rfl
  · split
    case _ l heq =>
      rcases Option.bind_eq_some.mp heq with ⟨e, he, hl⟩
      obtain ⟨k, hk⟩ := lookup_mem hl
      have hw := dataset_entries_wellformed (k, l) hk
      right
      refine ⟨(pyChoice l w).1, ?_, ?_, rfl⟩
      · exact (hw.2 _ (pyChoice_mem l w hw.1)).1
      · exact (hw.2 _ (pyChoice_mem l w hw.1)).2
    case _ heq =>
      right
      have hw := fallback_entries_wellformed
      refine ⟨(pyChoice FALLBACK_DUAS w).1, ?_, ?_, rfl⟩
      · exact (hw.2 _ (pyChoice_mem FALLBACK_DUAS w hw.1)).1
      · exact (hw.2 _ (pyChoice_mem FALLBACK_DUAS w hw.1)).2

/-- `fetch_dua` leaves the session store untouched. -/
theorem fetch_dua_memory (s : TherapyState) (w : World) :
    (fetch_dua s w).2.memory = w.memory := by
  unfold fetch_dua
  dsimp only
  split
  · rfl
  · split <;> rfl

/-- `fetch_dua` never calls the text-generation client. -/
theorem fetch_dua_genCalls (s : TherapyState) (w : World) :
    (fetch_dua s w).2.genCalls = w.genCalls := by
  unfold fetch_dua
  dsimp only
  split
  · rfl
  · split <;> rfl

/-- `classify_emotion` leaves the session store untouched. -/
theorem classify_emotion_memory (s : TherapyState) (w : World) :
    (classify_emotion s w).2.memory = w.memory := by
  unfold classify_emotion callModel
  cases w.genResults w.genCalls <;> rfl

/-- `generate_counseling` leaves the session store untouched. -/
theorem generate_counseling_memory (s : TherapyState) (w : World) :
    (generate_counseling s w).2.memory = w.memory := by
  unfold generate_counseling callModel
  cases w.genResults w.genCalls <;> rfl

/-- The stored mood value of a user, flattening the record lookup:
`none` when the user has no record or the record has no `"mood"` key. -/
def moodOf (m : String → Option MemRecord) (u : String) : Option (Option String) :=
  (m u).bind MemRecord.mood

/-- When the incoming state carries no `"emotion"` key, `set_user_memory`
never writes a mood: every stored mood value is preserved. -/
theorem set_user_memory_mood (s : TherapyState) (w : World)
    (h : s.emotion = none) (u : String) :
    moodOf (set_user_memory s w).2.memory u = moodOf w.memory u := by
  cases hn : s.name with
  | none =>
    unfold set_user_memory
    rw [h, hn]
    dsimp only
    split <;> rfl
  | some v =>
    unfold set_user_memory
    rw [h, hn]
    dsimp only
    split <;>
    · unfold moodOf
      dsimp only
      by_cases hu : u = s.user_id
      · rw [if_pos hu]
        rw [hu]
        cases hm : w.memory s.user_id <;> simp [hm]
      · rw [if_neg hu]

/-- Neither branch after routing touches the session store. -/
theorem runBranch_memory (s : TherapyState) (w : World) :
    (runBranch s w).2.memory = w.memory := by
  unfold runBranch
  split
  · dsimp only
    rw [generate_counseling_memory, fetch_dua_memory]
  · rw [generate_counseling_memory]

/-- A full graph invocation started on a state without an `"emotion"` key
preserves every stored mood value, whether it succeeds or aborts. -/
theorem invoke_mood (s : TherapyState) (w : World) (h : s.emotion = none) (u : String) :
    moodOf (invoke s w).2.memory u = moodOf w.memory u := by
  unfold invoke
  rcases hm : set_user_memory s w with ⟨r1, w1⟩
  have h1 : moodOf w1.memory u = moodOf w.memory u := by
    have hh := set_user_memory_mood s w h u
    rw [hm] at hh
    exact hh
  cases r1 with
  | error e => exact h1
  | ok s1 =>
    dsimp only
    rcases hc : classify_emotion s1 w1 with ⟨r2, w2⟩
    have h2 : w2.memory = w1.memory := by
      have hh := classify_emotion_memory s1 w1
      rw [hc] at hh
      exact hh
    cases r2 with
    | error e =>
      simp only [moodOf] at *
      rw [h2]
      exact h1
    | ok s2 =>
      simp only [moodOf] at *
      rw [runBranch_memory, h2]
      exact h1

def C1req : ChatRequest := { user_id := "u1", name := some "Ali", message := "hello" }

def C1w : World :=
  { genResults := fun n => if n == 0 then .ok "happy" else .ok "   ",
    genCalls := 0, randPick := fun _ => 0, randCalls := 0, memory := fun _ => none }

/-- C1 counterexample: a pipeline run that completes without any error but
whose final reply is the empty string — the synthesis call returned pure
whitespace, the stripped result is empty, and it is returned as a valid
reply instead of being treated as a failure. -/
theorem pipeline_ok_with_empty_reply :
    (chat C1req C1w).1 =
      Except.ok { name := some "Ali", emotion := some "happy", message := "" } := by
  decide

def C1s : TherapyState := { user_id := "u1", name := some (some "Ali"), message := "hello" }

def C1w2 : World :=
  { genResults := fun _ => .ok "   ",
    genCalls := 0, randPick := fun _ => 0, randCalls := 0, memory := fun _ => none }

/-- C1 amended: when the synthesis call succeeds, `generate_counseling`
completes without error and stores exactly the stripped generation output
as the reply — including the empty string; an empty synthesis result is
not treated as a failure. -/
theorem counseling_reply_is_stripped_output (s : TherapyState) (w : World) (t : String)
    (h : w.genResults w.genCalls = Except.ok t) :
    generate_counseling s w =
      (Except.ok { s with response := some (pyStrip t) },
       { w with genCalls := w.genCalls + 1 }) := by
  simp [generate_counseling, callModel, h]

/-- C1 witness: the amended theorem instantiated at a whitespace-only
generation output, yielding an empty stored reply. -/
theorem counseling_reply_is_stripped_output_witness :
    generate_counseling C1s C1w2 =
      (Except.ok { C1s with response := some (pyStrip "   ") },
       { C1w2 with genCalls := C1w2.genCalls + 1 }) ∧ pyStrip "   " = "" :=
  ⟨counseling_reply_is_stripped_output C1s C1w2 "   " rfl, by decide⟩

def C2s : TherapyState := { user_id := "u1", message := "hello" }

def C2w : World :=
  { genResults := fun _ => .ok " FOO Bar ",
    genCalls := 0, randPick := fun _ => 0, randCalls := 0, memory := fun _ => none }

def C2werr : World :=
  { genResults := fun _ => .error .timeout,
    genCalls := 0, randPick := fun _ => 0, randCalls := 0, memory := fun _ => none }

/-- C2 counterexample: on a multi-word classification output outside the
nine-member category set, `classify_emotion` stores the lowercased stripped
text "foo bar" in the state instead of normalizing it to `none`. -/
theorem classify_accepts_malformed_label :
    ((classify_emotion C2s C2w).1 =
      Except.ok { C2s with emotion := some (some "foo bar") }) ∧
    "foo bar" ∉ EMOTION_LABELS ∧ "foo bar" ≠ "none" := by
  decide

/-- C2 amended: `classify_emotion` stores the stripped, lowercased
classifier output verbatim, whatever it is — there is no validation against
the category set — and a failure of the underlying call propagates as an
error that aborts the request instead of degrading to `none`. -/
theorem classify_verbatim_or_propagates (s : TherapyState) (w : World) :
    (∀ t, w.genResults w.genCalls = Except.ok t →
      classify_emotion s w =
        (Except.ok { s with emotion := some (some (pyLower (pyStrip t))) },
         { w with genCalls := w.genCalls + 1 })) ∧
    (∀ e, w.genResults w.genCalls = Except.error e →
      classify_emotion s w =
        (Except.error (PipeError.gen e), { w with genCalls := w.genCalls + 1 })) := by
  constructor <;> intro x h <;> simp [classify_emotion, callModel, h]

/-- C2 witness: the amended theorem instantiated at a malformed success
output and at a timeout failure. -/
theorem classify_verbatim_or_propagates_witness :
    classify_emotion C2s C2w =
      (Except.ok { C2s with emotion := some (some (pyLower (pyStrip " FOO Bar "))) },
       { C2w with genCalls := C2w.genCalls + 1 }) ∧
    classify_emotion C2s C2werr =
      (Except.error (PipeError.gen GenError.timeout),
       { C2werr with genCalls := C2werr.genCalls + 1 }) :=
  ⟨(classify_verbatim_or_propagates C2s C2w).1 " FOO Bar " rfl,
   (classify_verbatim_or_propagates C2s C2werr).2 GenError.timeout rfl⟩

def C3req : ChatRequest :=
  { user_id := "u1", name := some "Ali", message := "i feel so alone tonight" }

def C3w : World :=
  { genResults := fun n => if n == 0 then .ok "lonely" else .error .timeout,
    genCalls := 0, randPick := fun _ => 0, randCalls := 0, memory := fun _ => none }

/-- C3 counterexample: when the client times out during synthesis in the
emotional branch, the whole request fails with the propagated error — there
is no fixed apology string and no 200-shaped response. -/
theorem synthesis_timeout_becomes_http_error :
    (chat C3req C3w).1 = Except.error (PipeError.gen GenError.timeout) := by
  decide

def C3s : TherapyState := { user_id := "u1", message := "hello" }

def C3werr : World :=
  { genResults := fun _ => .error .timeout,
    genCalls := 0, randPick := fun _ => 0, randCalls := 0, memory := fun _ => none }

/-- C3 amended: synthesis makes exactly one client call in every run, and
on failure of that call the error propagates to the caller — no apology
fallback exists in the code. -/
theorem synthesis_one_call_error_propagates (s : TherapyState) (w : World) :
    (generate_counseling s w).2.genCalls = w.genCalls + 1 ∧
    (∀ e, w.genResults w.genCalls = Except.error e →
      generate_counseling s w =
        (Except.error (PipeError.gen e), { w with genCalls := w.genCalls + 1 })) := by
  constructor
  · unfold generate_counseling callModel
    cases w.genResults w.genCalls <;> rfl
  · intro e h
    simp [generate_counseling, callModel, h]

/-- C3 witness: the amended theorem instantiated at a timing-out client. -/
theorem synthesis_one_call_error_propagates_witness :
    (generate_counseling C3s C3werr).2.genCalls = C3werr.genCalls + 1 ∧
    generate_counseling C3s C3werr =
      (Except.error (PipeError.gen GenError.timeout),
       { C3werr with genCalls := C3werr.genCalls + 1 }) :=
  ⟨(synthesis_one_call_error_propagates C3s C3werr).1,
   (synthesis_one_call_error_propagates C3s C3werr).2 GenError.timeout rfl⟩

def W4 : World :=
  { genResults := fun _ => .ok "x",
    genCalls := 0, randPick := fun _ => 0, randCalls := 0, memory := fun _ => none }

/-- C4: the routing decision after classification is a pure function of the
state's emotion value: every emotion in the eight-member distress list
routes to `get_dua` (content lookup, then synthesis), and every other
value — other strings, the sentinel `"none"` read as a string, `None`, or
an absent key — routes straight to `generate_reply`, skipping lookup. -/
theorem routing_pure_function_of_emotion :
    (∀ s1 s2 : TherapyState, s1.emotion = s2.emotion → route s1 = route s2) ∧
    (∀ (s : TherapyState) (e : String), pyGet s.emotion = some e → e ∈ DISTRESS_LIST →
      route s = "get_dua") ∧
    (∀ (s : TherapyState) (e : String), pyGet s.emotion = some e → e ∉ DISTRESS_LIST →
      route s = "generate_reply") ∧
    (∀ s : TherapyState, pyGet s.emotion = none → route s = "generate_reply") ∧
    (∀ (s : TherapyState) (w : World), route s = "get_dua" →
      runBranch s w = generate_counseling (fetch_dua s w).1 (fetch_dua s w).2) ∧
    (∀ (s : TherapyState) (w : World), route s ≠ "get_dua" →
      runBranch s w = generate_counseling s w) := by
  refine ⟨?_, ?_, ?_, ?_, ?_, ?_⟩
  · intro s1 s2 h
    unfold route pyGet
    rw [h]
  · intro s e he hmem
    unfold route
    rw [he]
    simp [pyMem, hmem]
  · intro s e he hmem
    unfold route
    rw [he]
    simp [pyMem, hmem]
  · intro s he
    unfold route
    rw [he]
    simp [pyMem]
  · intro s w h
    unfold runBranch
    rw [if_pos h]
  · intro s w h
    unfold runBranch
    rw [if_neg h]

/-- C4 witness: the routing theorem instantiated at concrete states —
`lonely` routes to content lookup, `happy`, `"none"` and an absent emotion
route to direct synthesis, and the branch bodies match. -/
theorem routing_pure_function_of_emotion_witness :
    route { user_id := "ua", message := "m", emotion := some (some "lonely") } =
      route { user_id := "ub", message := "n", emotion := some (some "lonely") } ∧
    route { user_id := "u", message := "m", emotion := some (some "lonely") } = "get_dua" ∧
    route { user_id := "u", message := "m", emotion := some (some "happy") } = "generate_reply" ∧
    route { user_id := "u", message := "m", emotion := some (some "none") } = "generate_reply" ∧
    route { user_id := "u", message := "m" } = "generate_reply" ∧
    runBranch { user_id := "u", message := "m", emotion := some (some "lonely") } W4 =
      generate_counseling
        (fetch_dua { user_id := "u", message := "m", emotion := some (some "lonely") } W4).1
        (fetch_dua { user_id := "u", message := "m", emotion := some (some "lonely") } W4).2 ∧
    runBranch { user_id := "u", message := "m", emotion := some (some "happy") } W4 =
      generate_counseling { user_id := "u", message := "m", emotion := some (some "happy") } W4 :=
  ⟨routing_pure_function_of_emotion.1 _ _ rfl,
   routing_pure_function_of_emotion.2.1 _ "lonely" rfl (by decide),
   routing_pure_function_of_emotion.2.2.1 _ "happy" rfl (by decide),
   routing_pure_function_of_emotion.2.2.1 _ "none" rfl (by decide),
   routing_pure_function_of_emotion.2.2.2.1 _ rfl,
   routing_pure_function_of_emotion.2.2.2.2.1 _ W4 (by decide),
   routing_pure_function_of_emotion.2.2.2.2.2 _ W4 (by decide)⟩

def C5req1 : ChatRequest := { user_id := "u3", name := some "Ali", message := "hello" }

def C5req2 : ChatRequest := { user_id := "u3", message := "hi again" }

def C5w : World :=
  { genResults := fun n => if n % 2 == 0 then .ok "happy" else .ok "ok!",
    genCalls := 0, randPick := fun _ => 0, randCalls := 0, memory := fun _ => none }

/-- C5 (code bug): a name supplied on request 1 for `u3` and omitted on
request 2 is NOT returned on request 2 — the endpoint always passes the
`name` key (with value `None` when omitted), so `set_user_memory`
overwrites the stored "Ali" with `None` and the second response carries a
null name instead of the request-1 name. -/
theorem stored_name_overwritten_with_null :
    ((chat C5req1 C5w).1 =
      Except.ok { name := some "Ali", emotion := some "happy", message := "ok!" }) ∧
    ((chat C5req2 (chat C5req1 C5w).2).1 =
      Except.ok { name := none, emotion := some "happy", message := "ok!" }) := by
  decide

def C6req : ChatRequest := { user_id := "u6", name := some "Sara", message := "i feel sad" }

def C6w : World :=
  { genResults := fun n => if n == 0 then .ok "sad" else .ok "done",
    genCalls := 0, randPick := fun _ => 0, randCalls := 0, memory := fun _ => none }

def C6resp : ChatResponse := { name := some "Sara", emotion := some "sad", message := "done" }

def sadDuaZero : String :=
  "Arabic: اللّهُمَّ إِنِّي أَعُوذُ بِكَ مِنَ الهَمِّ وَالحَزَنِ\nTranslation: O Allah, I seek refuge in You from worry and grief."

/-- C6 counterexample: a successful emotional run whose HTTP response
object has exactly the keys name, emotion and message — there is no dua
field — while the artifact held in the pipeline state is serialized with
the prefix "Arabic:", not "Original:". -/
theorem response_lacks_dua_field :
    ((chat C6req C6w).1 = Except.ok C6resp) ∧
    (chatResponseJson C6resp).map Prod.fst = ["name", "emotion", "message"] ∧
    "dua" ∉ (chatResponseJson C6resp).map Prod.fst ∧
    ((invoke { user_id := "u6", name := some (some "Sara"), message := "i feel sad" } C6w).1 =
      Except.ok { user_id := "u6", name := some (some "Sara"), message := "i feel sad",
                  emotion := some (some "sad"), dua := some (some sadDuaZero),
                  response := some "done" }) ∧
    sadDuaZero ≠
      "Original: اللّهُمَّ إِنِّي أَعُوذُ بِكَ مِنَ الهَمِّ وَالحَزَنِ\nTranslation: O Allah, I seek refuge in You from worry and grief." := by
  decide

/-- C6 amended: every HTTP response object contains exactly the three
fields name, emotion and message; the fetched artifact stays in the
pipeline state's dua field, serialized as
"Arabic: [text] newline Translation: [text]", and is never placed in the
response. -/
theorem response_three_fields_and_arabic_serialization :
    (∀ r : ChatResponse, (chatResponseJson r).map Prod.fst = ["name", "emotion", "message"]) ∧
    (∀ (s : TherapyState) (w : World), (fetch_dua s w).1.dua = some none ∨
      ∃ d : Dua, (fetch_dua s w).1.dua =
        some (some ("Arabic: " ++ d.arabic ++ "\nTranslation: " ++ d.translation))) := by
  constructor
  · intro r
    rfl
  · intro s w
    rcases fetch_dua_shape s w with h | ⟨d, _, _, h⟩
    · exact Or.inl h
    · exact Or.inr ⟨d, by rw [h]; rfl⟩

def C7s : TherapyState := { user_id := "u1", message := "x", emotion := some (some "angry") }

def C7w : World :=
  { genResults := fun _ => .ok "a valid generated dua",
    genCalls := 0, randPick := fun _ => 0, randCalls := 0, memory := fun _ => none }

/-- C7 counterexample: for the distress category "angry", which has no
entries in the curated table, `fetch_dua` returns a generic fallback
artifact while making zero client calls — even though the client would
have answered successfully, contradicting the claim that the fallback is
returned only when a client call fails. -/
theorem fallback_returned_without_client_call :
    ((fetch_dua C7s C7w).2.genCalls = C7w.genCalls) ∧
    ((fetch_dua C7s C7w).1.dua = some (some (duaText (FALLBACK_DUAS.getD 0 ⟨"", ""⟩)))) ∧
    "angry" ∈ DISTRESS_LIST ∧ List.lookup "angry" DUA_DATASET = none := by
  decide

/-- C7 amended: for every category outside the happy/neutral/none list with
no entries in the curated table, `fetch_dua` never invokes the
text-generation client; it directly returns one of the five fixed generic
fallback artifacts. -/
theorem uncurated_distress_uses_fallback_no_client (s : TherapyState) (w : World) (e : String)
    (he : pyGet s.emotion = some e)
    (hn : pyMem (some e) ["happy", "neutral", "none"] = false)
    (hd : List.lookup e DUA_DATASET = none) :
    (fetch_dua s w).2.genCalls = w.genCalls ∧
    ∃ d ∈ FALLBACK_DUAS, (fetch_dua s w).1.dua = some (some (duaText d)) := by
  unfold fetch_dua
  dsimp only
  rw [he, hn]
  simp only [Bool.false_eq_true, if_false, Option.bind_some, Option.some_bind, hd]
  exact ⟨rfl, (pyChoice FALLBACK_DUAS w).1,
    pyChoice_mem _ _ fallback_entries_wellformed.1, rfl⟩

/-- C7 witness: the amended theorem instantiated at the category "angry". -/
theorem uncurated_distress_uses_fallback_no_client_witness :
    (fetch_dua C7s C7w).2.genCalls = C7w.genCalls ∧
    ∃ d ∈ FALLBACK_DUAS, (fetch_dua C7s C7w).1.dua = some (some (duaText d)) :=
  uncurated_distress_uses_fallback_no_client C7s C7w "angry" rfl (by decide) (by decide)

/-- C8: for every emotion value and every random draw, `fetch_dua` returns
(it is a total function — no error path exists) either the `None` marker or
the serialization of an artifact whose Arabic and translation fields are
both non-empty. -/
theorem fetch_dua_null_or_wellformed (s : TherapyState) (w : World) :
    (fetch_dua s w).1.dua = some none ∨
    ∃ d : Dua, d.arabic ≠ "" ∧ d.translation ≠ "" ∧
      (fetch_dua s w).1.dua = some (some (duaText d)) :=
  fetch_dua_shape s w

def C9req : ChatRequest := { user_id := "u2", message := "haha that\x27s funny" }

def C9w : World :=
  { genResults := fun n => if n == 0 then .ok "none" else .ok "Thanks!",
    genCalls := 0, randPick := fun _ => 0, randCalls := 0, memory := fun _ => none }

def C9resp : ChatResponse := { name := none, emotion := some "none", message := "Thanks!" }

/-- C9 counterexample: for a fresh user whose classifier output is "none",
the response's emotion field is "none" — the classifier output overwrites
the stored neutral default that `set_user_memory` had placed in the state,
so the response does not carry "neutral". -/
theorem fresh_user_none_classifier_overwrites_neutral :
    ((chat C9req C9w).1 = Except.ok C9resp) ∧ C9resp.emotion ≠ some "neutral" := by
  decide

def C9state : TherapyState :=
  { user_id := "u2", name := some none, message := "haha that\x27s funny" }

def C9final : TherapyState :=
  { user_id := "u2", name := some none, message := "haha that\x27s funny",
    emotion := some (some "none"), dua := none, response := some "Thanks!" }

/-- C9 amended: in the same scenario the casual branch is taken, the
state's dua key is never set (so no dua can appear in any response), the
emotion field of the response is the classifier sentinel "none", and the
message is the non-empty synthesis output. -/
theorem fresh_user_none_run_detailed :
    ((invoke C9state C9w).1 = Except.ok C9final) ∧
    ((chat C9req C9w).1 = Except.ok C9resp) ∧
    C9final.emotion = some (some "none") ∧ C9final.dua = none ∧
    C9final.response = some "Thanks!" ∧ "Thanks!" ≠ "" := by
  decide

/-- C10: no request through the `/chat` endpoint ever writes a mood into
the session store — the memory node runs before classification on a state
without an emotion key, and no later node touches the store — so every
stored mood value is preserved by a whole request, successful or not. -/
theorem chat_never_writes_mood (req : ChatRequest) (w : World) (u : String) :
    moodOf (chat req w).2.memory u = moodOf w.memory u := by
  unfold chat
  dsimp only
  rcases hi : invoke { user_id := req.user_id, name := some req.name, message := req.message } w
    with ⟨r, w'⟩
  have h1 : moodOf w'.memory u = moodOf w.memory u := by
    have hh := invoke_mood
      { user_id := req.user_id, name := some req.name, message := req.message } w rfl u
    rw [hi] at hh
    exact hh
  cases r with
  | error e => exact h1
  | ok st =>
    dsimp only
    cases st.name <;> cases st.emotion <;> cases st.response <;> exact h1
